import Mathlib

/-!
Verification of the question/answer session state machine and the
answer/image resolvers of the `AI-project` Streamlit applications
(`ai_answer_rng.py`, `ai_boa.py`, `ai_image_generator.py`).

The Python page handlers mutate `st.session_state`; here the session is an
explicit record and each user action (`Get Answer`, `Reroll Answer`,
`Clear History`, preset `Get Answer`) is a function from the old session to
the new one, parameterised by the answer resolver `get_ai_answer`
(modelled as a function `String → String` since the external capability is
out of scope).  Each action also reports the list of questions it sent to
the resolver and the validation warnings it surfaced, so that
"no resolver call" and "only a warning" are provable facts.
-/

/-- A `history` entry as appended by the pages:
`{"question": ..., "answer": ..., "rerolls": ...}`. -/
structure HistoryEntry where
  question : String
  answer : String
  rerolls : Nat
deriving Repr, DecidableEq

/-- The session-state fields the Session Store of the spec is about:
`st.session_state.question / .answer / .reroll / .history / .has_asked`. -/
structure Session where
  question : String
  answer : String
  reroll : Nat
  history : List HistoryEntry
  has_asked : Bool
deriving Repr, DecidableEq

/-- Result of one user action: the new session, the questions sent to
`get_ai_answer` (in order), and the `st.warning` messages issued. -/
structure ActionResult where
  session : Session
  resolverCalls : List String
  warnings : List String
deriving Repr, DecidableEq

/-- Model of Python `str.strip()` with no argument: remove leading and
trailing whitespace. -/
def pyStrip (s : String) : String :=
  String.mk (((s.data.dropWhile Char.isWhitespace).reverse.dropWhile
    Char.isWhitespace).reverse)

/-- The `Get Answer` branch of `home()` (`ai_answer_rng.py` lines 131-140,
identically `ai_boa.py` lines 145-154): if `question.strip()` is truthy,
set `question`, resolve the answer, reset `reroll` to 0, append a history
entry and set `has_asked`; otherwise warn and mutate nothing. -/
def askAction (resolve : String → String) (s : Session) (q : String) :
    ActionResult :=
  if pyStrip q ≠ "" then
    let a := resolve q
    { session :=
        { s with
          question := q
          answer := a
          reroll := 0
          history := s.history ++ [⟨q, a, 0⟩]
          has_asked := true }
      resolverCalls := [q]
      warnings := [] }
  else
    { session := s, resolverCalls := [], warnings := ["Please enter a question."] }

/-- In-place overwrite of the `answer` and `rerolls` fields of the last
entry, as done by `st.session_state.history[-1]["answer"] = ...;
st.session_state.history[-1]["rerolls"] = ...` (a no-op on `[]` because the
code guards with `if st.session_state.history:`). -/
def overwriteLast (a : String) (r : Nat) : List HistoryEntry → List HistoryEntry
  | [] => []
  | [e] => [{ e with answer := a, rerolls := r }]
  | e :: e' :: rest => e :: overwriteLast a r (e' :: rest)

/-- The `Reroll Answer` branch of `home()` (`ai_answer_rng.py` lines
142-151, identically `ai_boa.py` lines 156-165): if `session.question` is
truthy, increment `reroll`, re-resolve the answer for the unchanged
question and, when history is non-empty, overwrite the fields of the last entry:
`answer`/`rerolls`; otherwise warn and mutate nothing. -/
def rerollAction (resolve : String → String) (s : Session) : ActionResult :=
  if s.question ≠ "" then
    let a := resolve s.question
    { session :=
        { s with
          reroll := s.reroll + 1
          answer := a
          history := overwriteLast a (s.reroll + 1) s.history }
      resolverCalls := [s.question]
      warnings := [] }
  else
    { session := s, resolverCalls := [],
      warnings := ["No previous question to reroll. Ask first."] }

/-- The `Clear History` sidebar button (`ai_answer_rng.py` lines 114-118,
`ai_boa.py` lines 128-132): resets `history`, `question`, `answer`,
`reroll`.  Note the code never touches `has_asked`. -/
def clearHistoryAction (s : Session) : Session :=
  { s with history := [], question := "", answer := "", reroll := 0 }

/-- The preset-page `Get Answer` button (`ai_answer_rng.py` lines 210-214,
`ai_boa.py` lines 222-226): resolves an answer for the selected preset
question, appends a history entry and sets `has_asked`; it does not touch
`session.question`, `session.answer` or `session.reroll`. -/
def askPresetAction (resolve : String → String) (s : Session) (q : String) :
    ActionResult :=
  let a := resolve q
  { session :=
      { s with
        history := s.history ++ [⟨q, a, 0⟩]
        has_asked := true }
    resolverCalls := [q]
    warnings := [] }

/-!
Configuration resolution and the two resolvers.

External inputs are explicit parameters: environment variables are
`Option String` (a missing variable is `none`, and the Python `or` operator also
treats the empty string as false), `st.secrets.get("API_KEY")` is an
`Except Unit (Option String)` (accessing it may raise), and the
`openai.OpenAI(...)` constructor and the `client.chat.completions.create`
call are outcome parameters, since the capability is outside the program.
-/

/-- Python truthiness of an optional string: `None` and `""` are falsy. -/
def truthy : Option String → Bool
  | none => false
  | some s => s ≠ ""

/-- Python `a or b` where `a` is an optional string and `b` a string. -/
def pyOrS (a : Option String) (b : String) : String :=
  match a with
  | none => b
  | some s => if s = "" then b else s

/-- The environment-style configuration read by the resolvers. -/
structure ConfigEnv where
  apiKey : Option String
  secrets : Except Unit (Option String)
  apiBase : Option String
  poeBaseUrl : Option String
  model : Option String

/-- Model of `_get_api_base` (`ai_answer_rng.py` lines 29-31, `ai_boa.py` 27-28):
`os.environ.get("API_BASE") or os.environ.get("POE_BASE_URL") or
"https://api.poe.com/v1"`. -/
def get_api_base (env : ConfigEnv) : String :=
  pyOrS env.apiBase (pyOrS env.poeBaseUrl "https://api.poe.com/v1")

/-- Model of `_get_model` (`ai_answer_rng.py` lines 34-35, `ai_boa.py` 30-31):
`os.environ.get("MODEL") or "gpt-3.5-turbo"`. -/
def get_model (env : ConfigEnv) : String :=
  pyOrS env.model "gpt-3.5-turbo"

/-- The key resolution inside `_get_client`: `API_KEY or
os.environ.get("API_KEY")` (both read the same `API_KEY` variable, the
module-level one having been loaded by `os.getenv` at import), then the
`st.secrets.get("API_KEY")` fallback guarded by `try/except`. -/
def resolveKey (env : ConfigEnv) : Option String :=
  if truthy env.apiKey then env.apiKey
  else
    match env.secrets with
    | .ok v => v
    | .error _ => none

/-- Outcome of the `openai.OpenAI(api_key=key, base_url=base)` construction. -/
inductive ConstructOutcome where
  | ok
  | fail (msg : String)

/-- Model of `_get_client` (`ai_answer_rng.py` lines 38-54, `ai_boa.py` 33-48):
returns either `(client, None)` — here the key/base the client was built
with — or `(None, err)`. -/
def get_client (env : ConfigEnv) (con : ConstructOutcome) :
    Except String (String × String) :=
  let key := resolveKey env
  if truthy key then
    match con with
    | .ok => .ok (key.getD "", get_api_base env)
    | .fail msg => .error ("Failed to initialize OpenAI client: " ++ msg)
  else
    .error "API key not found. Set `API_KEY` in .env, environment, or Streamlit secrets."

/-- Outcome of the chat-completion call in `get_ai_answer`. -/
inductive CallOutcome where
  | ok (content : String)
  | malformed (respStr : String)
  | fail (msg : String)

/-- Model of `get_ai_answer` (`ai_answer_rng.py` lines 56-90, `ai_boa.py` 78-109):
propagates the error string from `_get_client`, else returns the trimmed content
on success, `str(resp)` when the response shape is malformed, and
`"Error calling completion API: ..."` when the call raises.  Every path
returns a string; no exception escapes. -/
def get_ai_answer (env : ConfigEnv) (con : ConstructOutcome)
    (call : CallOutcome) : String :=
  match get_client env con with
  | .error err => err
  | .ok _ =>
    match call with
    | .ok content => content.trim
    | .malformed respStr => respStr
    | .fail msg => "Error calling completion API: " ++ msg

/-!
The URL scan `re.search` with pattern `https?://` then `[^\s\)]+`: leftmost
occurrence of `http://` or `https://` followed by at least one character
that is neither whitespace nor a closing parenthesis, extended greedily.
-/

/-- Python `\s` for the ASCII range: space, tab, newline, carriage return,
vertical tab, form feed. -/
def isPySpace (c : Char) : Bool :=
  c = ' ' ∨ c = '\t' ∨ c = '\n' ∨ c = '\r' ∨ c = '\x0b' ∨ c = '\x0c'

/-- A character matched by `[^\s\)]`. -/
def isUrlChar (c : Char) : Bool :=
  ¬ isPySpace c ∧ c ≠ ')'

/-- Try to match `https?://[^\s\)]+` at the head of `cs`. -/
def matchUrlAt (cs : List Char) : Option (List Char) :=
  if cs.take 8 = "https://".toList then
    let u := (cs.drop 8).takeWhile isUrlChar
    if u = [] then none else some ("https://".toList ++ u)
  else if cs.take 7 = "http://".toList then
    let u := (cs.drop 7).takeWhile isUrlChar
    if u = [] then none else some ("http://".toList ++ u)
  else none

/-- Leftmost match of the URL pattern in `cs` (the semantics of
`re.search`). -/
def searchUrl : List Char → Option (List Char)
  | [] => none
  | c :: rest =>
    match matchUrlAt (c :: rest) with
    | some u => some u
    | none => searchUrl rest

/-- The first substring of `s` matching `https?://[^\s\)]+`, if any. -/
def findUrl (s : String) : Option String :=
  (searchUrl s.data).map List.asString

/-- Outcome of the image-model chat-completion call. -/
inductive ImageCall where
  | ok (content : String)
  | fail (msg : String)

/-- Model of `get_ai_image` (`ai_boa.py` lines 50-76).  The returned value is an
`Option String` because the Python function can fall off the end: when the
call succeeds but `re.search` finds no URL in the content, no `return`
statement executes and the function returns `None`. -/
def get_ai_image (env : ConfigEnv) (con : ConstructOutcome)
    (call : ImageCall) : Option String :=
  match get_client env con with
  | .error err => some err
  | .ok _ =>
    match call with
    | .fail msg => some ("Error generating image: " ++ msg)
    | .ok content =>
      match findUrl content with
      | some url => some url
      | none => none

/-!
The image-generation block of `ai_image_generator.py` (lines 74-120),
executed on form submission with a non-empty prompt.  Python resolves
names at run time, so a reference to a name the file never binds raises
`NameError` when the referencing line executes; the model makes name
lookup explicit against the list of names that are bound before the block
runs.  Each stage also reports how many `client.chat.completions.create`
calls it issued, so the retry bound is provable.
-/

/-- The names `ai_image_generator.py` binds before the generation block
runs: the module imports (lines 13-16) and top-level assignments
(18, 37-44, 49-65).  `re`, `image_prompt`, `question2` and `recipe_title`
are not among them: nothing in the file ever binds them. -/
def igBoundNames : List String :=
  ["st", "openai", "load_dotenv", "os", "API_KEY", "client",
   "api_key_present", "prompt_text", "col1", "col2", "image_size",
   "image_quality", "submit_button"]

/-- Evaluate a Python name against the bound names: an unbound name
raises `NameError` ("name X is not defined"; the Python message quotes X). -/
def lookupName (names : List String) (n : String) : Except String Unit :=
  if n ∈ names then .ok () else .error ("name " ++ n ++ " is not defined")

/-- The primary `try` body (lines 74-93): read `image_prompt` to build the
message, issue the call, then read `re` to scan the content.  The result
is the value left in `image_url` — the matched URL, or the raw content
when no match (lines 88-93 only reassign on a match) — paired with the
number of completion calls this stage issued. -/
def primaryStage (names : List String) (call : ImageCall) :
    Except String String × Nat :=
  match lookupName names "image_prompt" with
  | .error e => (.error e, 0)
  | .ok _ =>
    match call with
    | .fail msg => (.error msg, 1)
    | .ok content =>
      match lookupName names "re" with
      | .error e => (.error e, 1)
      | .ok _ => (.ok ((findUrl content).getD content), 1)

/-- The fallback `try` body (lines 96-118): build `color_name` from
`question2`, build `simple_prompt` from `recipe_title`, issue the second
call, then scan with `re.search` again. -/
def fallbackStage (names : List String) (call : ImageCall) :
    Except String String × Nat :=
  match lookupName names "question2" with
  | .error e => (.error e, 0)
  | .ok _ =>
    match lookupName names "recipe_title" with
    | .error e => (.error e, 0)
    | .ok _ =>
      match call with
      | .fail msg => (.error msg, 1)
      | .ok content =>
        match lookupName names "re" with
        | .error e => (.error e, 1)
        | .ok _ => (.ok ((findUrl content).getD content), 1)

/-- Outcome of the whole generation block. -/
inductive BlockOutcome where
  | raised (msg : String)
  | completed (image_url : String)
deriving Repr, DecidableEq

/-- The generation block: run the primary stage; on any exception run the
fallback stage (`except Exception as qwen_error`); if that also raises,
re-raise as `Exception("Qwen-Image generation failed: ...")`
(line 120), which nothing in the block catches. -/
def runGenBlock (names : List String) (primary fallback : ImageCall) :
    BlockOutcome :=
  match primaryStage names primary with
  | (.ok v, _) => .completed v
  | (.error _, _) =>
    match fallbackStage names fallback with
    | (.ok v, _) => .completed v
    | (.error e, _) => .raised ("Qwen-Image generation failed: " ++ e)

/-- Total number of completion calls the block issues: the primary call
plus, only when the primary stage raised, the fallback call. -/
def genBlockCalls (names : List String) (primary fallback : ImageCall) : Nat :=
  match primaryStage names primary with
  | (.ok _, n) => n
  | (.error _, n) => n + (fallbackStage names fallback).2

/-- Model of Python `str.startswith`: the convention by which callers of
the resolvers distinguish failure from success (for example line 153 of
`ai_answer_rng.py` checks `answer.startswith("Error")`). -/
def pyStartsWith (s p : String) : Bool :=
  decide (p.data <+: s.data)

/-- A fixed resolver stub used by the concrete witness scenarios below. -/
def demoResolve (q : String) : String :=
  "ans:" ++ q

/-! Helper lemmas. -/

theorem overwriteLast_length (a : String) (r : Nat) :
    ∀ h : List HistoryEntry, (overwriteLast a r h).length = h.length := by
  intro h
  induction h with
  | nil => rfl
  | cons e rest ih =>
    cases rest with
    | nil => rfl
    | cons e' rest' => simp [overwriteLast] at ih ⊢; exact ih

theorem overwriteLast_append_singleton (a : String) (r : Nat)
    (xs : List HistoryEntry) (e : HistoryEntry) :
    overwriteLast a r (xs ++ [e]) = xs ++ [{ e with answer := a, rerolls := r }] := by
  induction xs with
  | nil => rfl
  | cons x xs ih =>
    cases xs with
    | nil => rfl
    | cons y ys => simpa [overwriteLast] using ih

theorem overwriteLast_getLast? (a : String) (r : Nat)
    (h : List HistoryEntry) (e : HistoryEntry) (he : h.getLast? = some e) :
    (overwriteLast a r h).getLast? = some { e with answer := a, rerolls := r } := by
  rcases List.eq_nil_or_concat h with rfl | ⟨xs, x, rfl⟩
  · simp at he
  · rw [List.concat_eq_append] at he ⊢
    rw [List.getLast?_concat] at he
    cases he
    rw [overwriteLast_append_singleton, List.getLast?_concat]

theorem pyStartsWith_append (p a b : String)
    (hlen : p.data.length ≤ a.data.length) :
    pyStartsWith (a ++ b) p = pyStartsWith a p := by
  unfold pyStartsWith
  rw [String.data_append]
  exact decide_eq_decide.mpr (List.isPrefix_append_of_length hlen)

/-! Claim theorems. -/

/-- Claim C1: for every non-empty question q (trim(q) non-empty), the Ask
action sets `session.question` to q, resolves an answer a via the Answer
Resolver and sets `session.answer` to a, sets `session.reroll` to 0,
appends exactly one entry `{question: q, answer: a, rerolls: 0}` to
`history`, and sets `has_asked` to true. -/
theorem C1_ask_success (resolve : String → String) (s : Session) (q : String)
    (hq : pyStrip q ≠ "") :
    (askAction resolve s q).session.question = q ∧
    (askAction resolve s q).session.answer = resolve q ∧
    (askAction resolve s q).session.reroll = 0 ∧
    (askAction resolve s q).session.history = s.history ++ [⟨q, resolve q, 0⟩] ∧
    (askAction resolve s q).session.history.length = s.history.length + 1 ∧
    (askAction resolve s q).session.history.getLast? = some ⟨q, resolve q, 0⟩ ∧
    (askAction resolve s q).session.has_asked = true ∧
    (askAction resolve s q).resolverCalls = [q] := by
  refine ⟨?_, ?_, ?_, ?_, ?_, ?_, ?_, ?_⟩ <;>
    simp [askAction, hq, List.getLast?_concat]

theorem C1_ask_success_witness :
    (pyStrip "hi" ≠ "") ∧
    (askAction demoResolve ⟨"", "", 0, [], false⟩ "hi").session.question = "hi" ∧
    (askAction demoResolve ⟨"", "", 0, [], false⟩ "hi").session.answer = "ans:hi" ∧
    (askAction demoResolve ⟨"", "", 0, [], false⟩ "hi").session.reroll = 0 ∧
    (askAction demoResolve ⟨"", "", 0, [], false⟩ "hi").session.history =
      [⟨"hi", "ans:hi", 0⟩] ∧
    (askAction demoResolve ⟨"", "", 0, [], false⟩ "hi").session.has_asked = true ∧
    (askAction demoResolve ⟨"", "", 0, [], false⟩ "hi").resolverCalls = ["hi"] := by
  have h := C1_ask_success demoResolve ⟨"", "", 0, [], false⟩ "hi" (by decide)
  exact ⟨by decide, h.1, h.2.1.trans (by decide), h.2.2.1,
    h.2.2.2.1.trans (by decide), h.2.2.2.2.2.2.1, h.2.2.2.2.2.2.2⟩

/-- Claim C2: for every session state with a non-empty `session.question`,
the Reroll action increments `session.reroll` by exactly 1, leaves
`len(history)` unchanged (no append), and, when history is non-empty,
overwrites `history[-1].answer` with the newly resolved `session.answer`
and `history[-1].rerolls` with the new `session.reroll`. -/
theorem C2_reroll (resolve : String → String) (s : Session)
    (hq : s.question ≠ "") :
    (rerollAction resolve s).session.reroll = s.reroll + 1 ∧
    (rerollAction resolve s).session.history.length = s.history.length ∧
    (rerollAction resolve s).session.answer = resolve s.question ∧
    ∀ e : HistoryEntry, s.history.getLast? = some e →
      (rerollAction resolve s).session.history.getLast? =
        some { e with answer := (rerollAction resolve s).session.answer,
                      rerolls := (rerollAction resolve s).session.reroll } := by
  refine ⟨?_, ?_, ?_, ?_⟩
  · simp [rerollAction, hq]
  · simp [rerollAction, hq, overwriteLast_length]
  · simp [rerollAction, hq]
  · intro e he
    simp only [rerollAction, hq, if_pos, ne_eq, not_false_iff, if_true]
    exact overwriteLast_getLast? _ _ _ _ he

theorem C2_reroll_witness :
    ((⟨"x", "A", 0, [⟨"x", "A", 0⟩], true⟩ : Session).question ≠ "") ∧
    (rerollAction demoResolve ⟨"x", "A", 0, [⟨"x", "A", 0⟩], true⟩).session.reroll = 1 ∧
    (rerollAction demoResolve ⟨"x", "A", 0, [⟨"x", "A", 0⟩], true⟩).session.history.length = 1 ∧
    (rerollAction demoResolve ⟨"x", "A", 0, [⟨"x", "A", 0⟩], true⟩).session.answer = "ans:x" ∧
    (rerollAction demoResolve ⟨"x", "A", 0, [⟨"x", "A", 0⟩], true⟩).session.history.getLast? =
      some ⟨"x", "ans:x", 1⟩ := by
  have h := C2_reroll demoResolve ⟨"x", "A", 0, [⟨"x", "A", 0⟩], true⟩ (by decide)
  exact ⟨by decide, h.1, h.2.1, h.2.2.1.trans (by decide),
    (h.2.2.2 ⟨"x", "A", 0⟩ rfl).trans (by decide)⟩

/-- Claim C3 (corrected), counterexample: the claim also asserts
`has_asked == False` after ClearHistory, but the Clear History handler
never touches `has_asked`; from a state with `has_asked = true` it stays
true. -/
theorem C3_counterexample :
    ¬ ((clearHistoryAction ⟨"q", "a", 2, [⟨"q", "a", 2⟩], true⟩).has_asked = false) := by
  decide

/-- Claim C3 (amended): the ClearHistory operation is idempotent and after
it `question == ""`, `answer == ""`, `reroll == 0`, `history == []`, for
every prior session state; `has_asked` is left unchanged (the handler does
not reset it). -/
theorem C3_clear_history (s : Session) :
    clearHistoryAction (clearHistoryAction s) = clearHistoryAction s ∧
    (clearHistoryAction s).question = "" ∧
    (clearHistoryAction s).answer = "" ∧
    (clearHistoryAction s).reroll = 0 ∧
    (clearHistoryAction s).history = [] ∧
    (clearHistoryAction s).has_asked = s.has_asked :=
  ⟨rfl, rfl, rfl, rfl, rfl, rfl⟩

/-- Claim C4: for every question string q with trim(q) empty, Ask performs
no mutation and no resolver call, and Reroll with `session.question == ""`
performs no mutation and no resolver call; in both cases only a validation
warning is surfaced. -/
theorem C4_validation_rejection (resolve : String → String) (s : Session)
    (q : String) :
    (pyStrip q = "" →
      askAction resolve s q = ⟨s, [], ["Please enter a question."]⟩) ∧
    (s.question = "" →
      rerollAction resolve s =
        ⟨s, [], ["No previous question to reroll. Ask first."]⟩) := by
  constructor
  · intro h; simp [askAction, h]
  · intro h; simp [rerollAction, h]

theorem C4_validation_rejection_witness :
    (pyStrip "  " = "") ∧
    askAction demoResolve ⟨"", "", 0, [], false⟩ "  " =
      ⟨⟨"", "", 0, [], false⟩, [], ["Please enter a question."]⟩ ∧
    rerollAction demoResolve ⟨"", "", 0, [], false⟩ =
      ⟨⟨"", "", 0, [], false⟩, [], ["No previous question to reroll. Ask first."]⟩ :=
  ⟨by decide,
   (C4_validation_rejection demoResolve ⟨"", "", 0, [], false⟩ "  ").1 (by decide),
   (C4_validation_rejection demoResolve ⟨"", "", 0, [], false⟩ "  ").2 rfl⟩

/-- Claim C9: Reroll overwrites the last history entry unconditionally,
without checking that its question matches `session.question`: after
AskPreset(p) (which appends an entry for p without updating
`session.question`) followed by Reroll(), `history[-1].question` still
equals p while `history[-1].answer` is freshly resolved for the different
question `session.question`. -/
theorem C9_preset_then_reroll (resolve : String → String) (s : Session)
    (p : String) (hq : s.question ≠ "") (hne : p ≠ s.question) :
    (rerollAction resolve (askPresetAction resolve s p).session).session.history.getLast? =
      some ⟨p, resolve s.question, s.reroll + 1⟩ ∧
    (rerollAction resolve (askPresetAction resolve s p).session).session.question =
      s.question ∧
    (rerollAction resolve (askPresetAction resolve s p).session).session.answer =
      resolve s.question ∧
    (rerollAction resolve (askPresetAction resolve s p).session).resolverCalls =
      [s.question] := by
  refine ⟨?_, ?_, ?_, ?_⟩ <;>
    simp [askPresetAction, rerollAction, hq,
      overwriteLast_append_singleton, List.getLast?_concat]

theorem C9_preset_then_reroll_witness :
    ((⟨"x", "A", 0, [⟨"x", "A", 0⟩], true⟩ : Session).question ≠ "") ∧
    ("How can I be happy?" ≠ "x") ∧
    (rerollAction demoResolve
        (askPresetAction demoResolve ⟨"x", "A", 0, [⟨"x", "A", 0⟩], true⟩
          "How can I be happy?").session).session.history.getLast? =
      some ⟨"How can I be happy?", "ans:x", 1⟩ ∧
    (rerollAction demoResolve
        (askPresetAction demoResolve ⟨"x", "A", 0, [⟨"x", "A", 0⟩], true⟩
          "How can I be happy?").session).session.answer = "ans:x" := by
  have h := C9_preset_then_reroll demoResolve ⟨"x", "A", 0, [⟨"x", "A", 0⟩], true⟩
    "How can I be happy?" (by decide) (by decide)
  exact ⟨by decide, by decide, h.1.trans (by decide), h.2.2.1.trans (by decide)⟩

/-- Claim C5 (corrected), counterexample: with no credential configured,
`get_ai_answer` returns the failure string "API key not found. ..." which
does not begin with the "Error" marker the callers check, refuting "every
returned failure string begins with the recognizable Error marker". -/
theorem C5_counterexample :
    get_ai_answer ⟨none, Except.error (), none, none, none⟩ ConstructOutcome.ok
        (CallOutcome.ok "hi") =
      "API key not found. Set `API_KEY` in .env, environment, or Streamlit secrets." ∧
    pyStartsWith
        (get_ai_answer ⟨none, Except.error (), none, none, none⟩ ConstructOutcome.ok
          (CallOutcome.ok "hi")) "Error" = false := by
  exact ⟨rfl, by decide⟩

/-- Claim C5 (amended): for every input and every behaviour of the
external capability, `get_ai_answer` returns a string and never propagates
an exception; the completion-call failure string begins with "Error", but
the missing-credential failure begins with "API key not found", the
client-construction failure begins with "Failed to initialize OpenAI
client", and a malformed response is returned as `str(resp)` verbatim —
so not every failure string carries the "Error" marker. -/
theorem C5_resolver_failure_strings (env : ConfigEnv) (con : ConstructOutcome)
    (call : CallOutcome) :
    (truthy (resolveKey env) = false →
      get_ai_answer env con call =
        "API key not found. Set `API_KEY` in .env, environment, or Streamlit secrets." ∧
      pyStartsWith (get_ai_answer env con call) "Error" = false) ∧
    (∀ m, truthy (resolveKey env) = true → con = ConstructOutcome.fail m →
      get_ai_answer env con call = "Failed to initialize OpenAI client: " ++ m ∧
      pyStartsWith (get_ai_answer env con call) "Error" = false) ∧
    (∀ c, truthy (resolveKey env) = true → con = ConstructOutcome.ok →
      call = CallOutcome.ok c → get_ai_answer env con call = c.trim) ∧
    (∀ r, truthy (resolveKey env) = true → con = ConstructOutcome.ok →
      call = CallOutcome.malformed r → get_ai_answer env con call = r) ∧
    (∀ m, truthy (resolveKey env) = true → con = ConstructOutcome.ok →
      call = CallOutcome.fail m →
      get_ai_answer env con call = "Error calling completion API: " ++ m ∧
      pyStartsWith (get_ai_answer env con call) "Error" = true) := by
  refine ⟨?_, ?_, ?_, ?_, ?_⟩
  · intro h
    have hr : get_ai_answer env con call =
        "API key not found. Set `API_KEY` in .env, environment, or Streamlit secrets." := by
      simp [get_ai_answer, get_client, h]
    exact ⟨hr, by rw [hr]; decide⟩
  · intro m h hcon
    subst hcon
    have hr : get_ai_answer env (ConstructOutcome.fail m) call =
        "Failed to initialize OpenAI client: " ++ m := by
      simp [get_ai_answer, get_client, h]
    refine ⟨hr, ?_⟩
    rw [hr, pyStartsWith_append _ _ _ (by decide)]
    decide
  · intro c h hcon hcall
    subst hcon; subst hcall
    simp [get_ai_answer, get_client, h]
  · intro r h hcon hcall
    subst hcon; subst hcall
    simp [get_ai_answer, get_client, h]
  · intro m h hcon hcall
    subst hcon; subst hcall
    have hr : get_ai_answer env ConstructOutcome.ok (CallOutcome.fail m) =
        "Error calling completion API: " ++ m := by
      simp [get_ai_answer, get_client, h]
    refine ⟨hr, ?_⟩
    rw [hr, pyStartsWith_append _ _ _ (by decide)]
    decide

theorem C5_resolver_failure_strings_witness :
    truthy (resolveKey ⟨none, Except.error (), none, none, none⟩) = false ∧
    get_ai_answer ⟨none, Except.error (), none, none, none⟩ ConstructOutcome.ok
        (CallOutcome.ok "hi") =
      "API key not found. Set `API_KEY` in .env, environment, or Streamlit secrets." ∧
    truthy (resolveKey ⟨some "k", Except.ok none, none, none, none⟩) = true ∧
    get_ai_answer ⟨some "k", Except.ok none, none, none, none⟩ ConstructOutcome.ok
        (CallOutcome.fail "boom") = "Error calling completion API: boom" ∧
    pyStartsWith
        (get_ai_answer ⟨some "k", Except.ok none, none, none, none⟩ ConstructOutcome.ok
          (CallOutcome.fail "boom")) "Error" = true := by
  have h1 := (C5_resolver_failure_strings ⟨none, Except.error (), none, none, none⟩
    ConstructOutcome.ok (CallOutcome.ok "hi")).1 (by decide)
  have h2 := ((C5_resolver_failure_strings ⟨some "k", Except.ok none, none, none, none⟩
    ConstructOutcome.ok (CallOutcome.fail "boom")).2.2.2.2) "boom" (by decide) rfl rfl
  exact ⟨by decide, h1.1, by decide, h2.1.trans (by decide), h2.2⟩

/-- Claim C7 (corrected), counterexample: when the image call succeeds but
the content contains no URL-pattern match, `get_ai_image` falls off the
end of the function and returns Python `None` — a non-string value. -/
theorem C7_counterexample :
    get_ai_image ⟨some "k", Except.ok none, none, none, none⟩ ConstructOutcome.ok
      (ImageCall.ok "Here is a lovely picture of a cat.") = none := by
  rfl

/-- Claim C7 (amended): `get_ai_image` returns the client error string on
configuration/construction failure, "Error generating image: ..." on call
failure, and the first substring of the content matching `https?://`
followed by non-whitespace, non-close-paren characters when one exists;
but when the call succeeds and no URL pattern matches, it returns `None`
(no `return` executes) rather than a string. -/
theorem C7_image_resolver (env : ConfigEnv) (con : ConstructOutcome)
    (call : ImageCall) :
    (∀ err, get_client env con = Except.error err →
      get_ai_image env con call = some err) ∧
    (∀ kb m, get_client env con = Except.ok kb → call = ImageCall.fail m →
      get_ai_image env con call = some ("Error generating image: " ++ m) ∧
      pyStartsWith ("Error generating image: " ++ m) "Error" = true) ∧
    (∀ kb c u, get_client env con = Except.ok kb → call = ImageCall.ok c →
      findUrl c = some u → get_ai_image env con call = some u) ∧
    (∀ kb c, get_client env con = Except.ok kb → call = ImageCall.ok c →
      findUrl c = none → get_ai_image env con call = none) := by
  refine ⟨?_, ?_, ?_, ?_⟩
  · intro err h; simp [get_ai_image, h]
  · intro kb m h hc
    subst hc
    refine ⟨by simp [get_ai_image, h], ?_⟩
    rw [pyStartsWith_append _ _ _ (by decide)]
    decide
  · intro kb c u h hc hu; subst hc; simp [get_ai_image, h, hu]
  · intro kb c h hc hu; subst hc; simp [get_ai_image, h, hu]

theorem C7_image_resolver_witness :
    get_client ⟨some "k", Except.ok none, none, none, none⟩ ConstructOutcome.ok =
      Except.ok ("k", "https://api.poe.com/v1") ∧
    findUrl "go https://a.b/c.png now" = some "https://a.b/c.png" ∧
    get_ai_image ⟨some "k", Except.ok none, none, none, none⟩ ConstructOutcome.ok
      (ImageCall.ok "go https://a.b/c.png now") = some "https://a.b/c.png" ∧
    get_ai_image ⟨some "k", Except.ok none, none, none, none⟩ ConstructOutcome.ok
      (ImageCall.fail "boom") = some "Error generating image: boom" := by
  have h3 := (C7_image_resolver ⟨some "k", Except.ok none, none, none, none⟩
    ConstructOutcome.ok (ImageCall.ok "go https://a.b/c.png now")).2.2.1
    ("k", "https://api.poe.com/v1") "go https://a.b/c.png now" "https://a.b/c.png"
    rfl rfl (by decide)
  have h4 := (C7_image_resolver ⟨some "k", Except.ok none, none, none, none⟩
    ConstructOutcome.ok (ImageCall.fail "boom")).2.1
    ("k", "https://api.poe.com/v1") "boom" rfl rfl
  exact ⟨rfl, by decide, h3, (h4.1).trans (by decide)⟩

/-- Claim C8: configuration resolution follows the exact precedence — API
key from the environment variable first, then the secrets-store lookup,
else the "not configured" failure string; the API base URL defaults to
https://api.poe.com/v1 when no environment override is set; the model name
defaults to gpt-3.5-turbo when unset. -/
theorem C8_config_precedence (env : ConfigEnv) (con : ConstructOutcome) :
    (∀ k, env.apiKey = some k → k ≠ "" → resolveKey env = some k) ∧
    (∀ v, truthy env.apiKey = false → env.secrets = Except.ok v →
      resolveKey env = v) ∧
    (truthy env.apiKey = false → env.secrets = Except.error () →
      resolveKey env = none) ∧
    (truthy (resolveKey env) = false →
      get_client env con =
        Except.error
          "API key not found. Set `API_KEY` in .env, environment, or Streamlit secrets.") ∧
    (truthy (resolveKey env) = true → con = ConstructOutcome.ok →
      get_client env con = Except.ok ((resolveKey env).getD "", get_api_base env)) ∧
    (env.apiBase = none → env.poeBaseUrl = none →
      get_api_base env = "https://api.poe.com/v1") ∧
    (env.model = none → get_model env = "gpt-3.5-turbo") := by
  refine ⟨?_, ?_, ?_, ?_, ?_, ?_, ?_⟩
  · intro k hk hne; simp [resolveKey, truthy, hk, hne]
  · intro v h hs; simp [resolveKey, h, hs]
  · intro h hs; simp [resolveKey, h, hs]
  · intro h; simp [get_client, h]
  · intro h hcon; subst hcon; simp [get_client, h]
  · intro h1 h2; simp [get_api_base, pyOrS, h1, h2]
  · intro h; simp [get_model, pyOrS, h]

theorem C8_config_precedence_witness :
    resolveKey ⟨some "envk", Except.ok (some "seck"), none, none, none⟩ = some "envk" ∧
    resolveKey ⟨none, Except.ok (some "seck"), none, none, none⟩ = some "seck" ∧
    get_client ⟨none, Except.error (), none, none, none⟩ ConstructOutcome.ok =
      Except.error
        "API key not found. Set `API_KEY` in .env, environment, or Streamlit secrets." ∧
    get_api_base ⟨some "k", Except.ok none, none, none, none⟩ = "https://api.poe.com/v1" ∧
    get_model ⟨some "k", Except.ok none, none, none, none⟩ = "gpt-3.5-turbo" := by
  have h1 := (C8_config_precedence ⟨some "envk", Except.ok (some "seck"), none, none, none⟩
    ConstructOutcome.ok).1 "envk" rfl (by decide)
  have h2 := (C8_config_precedence ⟨none, Except.ok (some "seck"), none, none, none⟩
    ConstructOutcome.ok).2.1 (some "seck") rfl rfl
  have h3 := (C8_config_precedence ⟨none, Except.error (), none, none, none⟩
    ConstructOutcome.ok).2.2.2.1 (by decide)
  have h4 := (C8_config_precedence ⟨some "k", Except.ok none, none, none, none⟩
    ConstructOutcome.ok).2.2.2.2.2.1 rfl rfl
  have h5 := (C8_config_precedence ⟨some "k", Except.ok none, none, none, none⟩
    ConstructOutcome.ok).2.2.2.2.2.2 rfl
  exact ⟨h1, h2, h3, h4, h5⟩

/-- Claim C6 (code bug): evaluating the shipped code at a failing primary
call.  The generation block of `ai_image_generator.py` raises before the
fallback call is ever issued (the fallback-prompt construction reads the
unbound name `question2`), so zero further calls are made, not the
"exactly one further call with a distinct fallback prompt" that the
fallback comment and the spec describe; and `get_ai_image` of `ai_boa.py`
returns the error string directly with no fallback attempt at all. -/
theorem C6_fallback_never_executes :
    runGenBlock igBoundNames (ImageCall.fail "boom")
        (ImageCall.ok "https://img.example/f.png") =
      BlockOutcome.raised "Qwen-Image generation failed: name question2 is not defined" ∧
    genBlockCalls igBoundNames (ImageCall.fail "boom")
        (ImageCall.ok "https://img.example/f.png") = 0 ∧
    get_ai_image ⟨some "k", Except.ok none, none, none, none⟩ ConstructOutcome.ok
      (ImageCall.fail "boom") = some "Error generating image: boom" := by
  exact ⟨rfl, rfl, rfl⟩

/-- Claim C10: the image-generation block of `ai_image_generator.py`
references names never bound in the file (`image_prompt`, `re`,
`question2`, `recipe_title`), so for every behaviour of the external
capability the submission path cannot complete successfully and never
displays a generated image: its error branches are always reached and the
block always ends in an uncaught exception. -/
theorem C10_block_never_succeeds (primary fallback : ImageCall) :
    runGenBlock igBoundNames primary fallback =
      BlockOutcome.raised "Qwen-Image generation failed: name question2 is not defined" ∧
    "image_prompt" ∉ igBoundNames ∧ "re" ∉ igBoundNames ∧
    "question2" ∉ igBoundNames ∧ "recipe_title" ∉ igBoundNames := by
  refine ⟨rfl, by decide, by decide, by decide, by decide⟩
